import Mathlib

/-!
Shallow embedding of the loan-platform client orchestration layer
(`src/Backend/Frontend/js/auth.js`, `src/Backend/Frontend/js/paystack.js`,
`src/unnamed/part_000`, `src/unnamed/part_001`, `src/unnamed/part_002`).

JavaScript values that flow through the code (JSON request/response bodies,
token payloads, storage contents) are modelled by the inductive type `Json`;
JavaScript numbers are modelled exactly by `JsNum` (rationals plus the three
non-finite values).  Fallible operations return `Except`/`Option`; stateful
operations (the token store) take and return the storage contents explicitly.

There are two divergent variants of the auth module in the repository:
`src/unnamed/part_000` (identical, apart from the added `apiFormData` upload
path, to `src/unnamed/part_001`) and `src/Backend/Frontend/js/auth.js`.
Definitions for the former carry the suffix `P0`, for the latter `A`.
-/

/-- A JSON / JavaScript structured value.  Numbers are rationals (JSON has no
NaN/Infinity literals and all values appearing in the programs are small
integers, for which IEEE doubles are exact). -/
inductive Json where
  | null : Json
  | bool (b : Bool) : Json
  | num (q : ℚ) : Json
  | str (s : String) : Json
  | arr (elems : List Json) : Json
  | obj (fields : List (String × Json)) : Json

/-- A JavaScript number: finite (exact rational) or NaN / ±Infinity. -/
inductive JsNum where
  | nan : JsNum
  | posInf : JsNum
  | negInf : JsNum
  | fin (q : ℚ) : JsNum
  deriving DecidableEq, Repr

namespace JsNum

/-- Models `Number.isFinite`. -/
def isFinite : JsNum → Bool
  | .fin _ => true
  | _ => false

/-- JavaScript subtraction on numbers (NaN-propagating, inf-aware). -/
def sub : JsNum → JsNum → JsNum
  | .nan, _ => .nan
  | _, .nan => .nan
  | .posInf, .posInf => .nan
  | .posInf, _ => .posInf
  | .negInf, .negInf => .nan
  | .negInf, _ => .negInf
  | .fin _, .posInf => .negInf
  | .fin _, .negInf => .posInf
  | .fin a, .fin b => .fin (a - b)

/-- JavaScript multiplication on numbers. -/
def mul : JsNum → JsNum → JsNum
  | .nan, _ => .nan
  | _, .nan => .nan
  | .posInf, .posInf => .posInf
  | .posInf, .negInf => .negInf
  | .negInf, .posInf => .negInf
  | .negInf, .negInf => .posInf
  | .posInf, .fin b => if b > 0 then .posInf else if b < 0 then .negInf else .nan
  | .negInf, .fin b => if b > 0 then .negInf else if b < 0 then .posInf else .nan
  | .fin a, .posInf => if a > 0 then .posInf else if a < 0 then .negInf else .nan
  | .fin a, .negInf => if a > 0 then .negInf else if a < 0 then .posInf else .nan
  | .fin a, .fin b => .fin (a * b)

/-- JavaScript `>=` on numbers: any comparison with NaN is false. -/
def ge : JsNum → JsNum → Bool
  | .nan, _ => false
  | _, .nan => false
  | .posInf, _ => true
  | .negInf, .negInf => true
  | .negInf, _ => false
  | .fin _, .posInf => false
  | .fin _, .negInf => true
  | .fin a, .fin b => decide (a ≥ b)

end JsNum

namespace Json

/-- JavaScript truthiness of a value. -/
def truthy : Json → Bool
  | .null => false
  | .bool b => b
  | .num q => decide (q ≠ 0)
  | .str s => decide (s ≠ "")
  | .arr _ => true
  | .obj _ => true

/-- Truthiness of an optional value (`none` models `undefined`). -/
def truthyOpt : Option Json → Bool
  | none => false
  | some v => truthy v

/-- Property access `v[k]`: on objects, the last binding of the key wins
(JavaScript object-literal / `JSON.parse` duplicate-key semantics); on any
other value the result is `undefined` (`none`). -/
def get (v : Json) (k : String) : Option Json :=
  match v with
  | .obj fields => (fields.reverse.find? (fun p => p.1 == k)).map (·.2)
  | _ => none

end Json

deriving instance DecidableEq for Except

/-! ### The fee schedule (`src/unnamed/part_002`, `Loan.computeServiceFee`) -/

/-- One row of the fixed bracket table in `Loan.computeServiceFee`. -/
structure FeeBracket where
  min : ℤ
  max : ℤ
  fee : ℤ
  label : String
  deriving DecidableEq, Repr

/-- The nine-band bracket table, bit-for-bit from `src/unnamed/part_002`. -/
def brackets : List FeeBracket :=
  [ ⟨1000, 1000, 200, "KES 1,000"⟩,
    ⟨2000, 2000, 290, "KES 2,000"⟩,
    ⟨3000, 5000, 680, "KES 3,000–5,000"⟩,
    ⟨6000, 11000, 1200, "KES 6,000–11,000"⟩,
    ⟨12000, 22000, 2200, "KES 12,000–22,000"⟩,
    ⟨23000, 32000, 3200, "KES 23,000–32,000"⟩,
    ⟨33000, 42000, 4200, "KES 33,000–42,000"⟩,
    ⟨43000, 52000, 5200, "KES 43,000–52,000"⟩,
    ⟨53000, 60000, 6000, "KES 53,000–60,000"⟩ ]

/-- Result shape `{fee, label}` of `Loan.computeServiceFee`. -/
structure FeeResult where
  fee : ℤ
  label : String
  deriving DecidableEq, Repr

/-- Models `Loan.computeServiceFee` (`src/unnamed/part_002`, lines 10–31).  The
argument is the already-coerced JavaScript number `Number(amount)`.  Thrown
`Error` messages are modelled as `Except.error`. -/
def computeServiceFee (amount : JsNum) : Except String FeeResult :=
  match amount with
  | .fin a =>
    if (⌊a⌋ : ℚ) ≠ a then .error "Amount must be a whole number."
    else if a < 1000 then .error "Minimum loan amount is 1,000."
    else if a > 60000 then .error "Maximum loan amount is 60,000."
    else
      match brackets.find? (fun b => decide ((b.min : ℚ) ≤ a) && decide (a ≤ (b.max : ℚ))) with
      | some b => .ok ⟨b.fee, b.label⟩
      | none => .error "Unsupported amount."
  | _ => .error "Amount must be a whole number."

/-- Whether bracket `b` covers the integer amount `a` (the `find?` predicate
of `Loan.computeServiceFee`, at an integral argument). -/
def coversB (b : FeeBracket) (a : ℤ) : Bool :=
  decide (b.min ≤ a) && decide (a ≤ b.max)

/-! ### Phone normalization (`normalizeKenyanPhone`, two variants) -/

/-- The JavaScript whitespace class `\s` (the characters removed by
`.trim()` and `.replace(/\s+/g, "")`), by code point. -/
def isJsWs (c : Char) : Bool :=
  c.toNat == 9 || c.toNat == 10 || c.toNat == 11 || c.toNat == 12 ||
  c.toNat == 13 || c.toNat == 32 || c.toNat == 160 || c.toNat == 5760 ||
  (8192 ≤ c.toNat && c.toNat ≤ 8202) || c.toNat == 8232 || c.toNat == 8233 ||
  c.toNat == 8239 || c.toNat == 8287 || c.toNat == 12288 || c.toNat == 65279

/-- The regex class `\d`. -/
def isDigitC (c : Char) : Bool :=
  48 ≤ c.toNat && c.toNat ≤ 57

/-- The input cleaning of `src/unnamed/part_000`: `trim()`, then replace all
`\s+` and all hyphens by nothing — i.e. remove every whitespace character and
every hyphen. -/
def cleanP0 (cs : List Char) : List Char :=
  cs.filter (fun c => !isJsWs c && c != '-')

/-- Models `String(input).trim().replace(/\s+/g, "")` from `auth.js`: removes every
whitespace character (hyphens are kept). -/
def cleanA (cs : List Char) : List Char :=
  cs.filter (fun c => !isJsWs c)

/-- Models `raw.startsWith("+") ? raw.slice(1) : raw`. -/
def dropPlus (cs : List Char) : List Char :=
  match cs with
  | [] => []
  | c :: rest => if c == '+' then rest else c :: rest

/-- The regex test `/^0(7|1)\d{8}$/`. -/
def shapeLocal10 (cs : List Char) : Bool :=
  match cs with
  | z :: p :: rest =>
    z == '0' && (p == '7' || p == '1') && rest.length == 8 && rest.all isDigitC
  | _ => false

/-- The regex test `/^(7|1)\d{8}$/`. -/
def shapeBare9 (cs : List Char) : Bool :=
  match cs with
  | p :: rest => (p == '7' || p == '1') && rest.length == 8 && rest.all isDigitC
  | [] => false

/-- Models `cs.startsWith("254")`. -/
def startsWith254 (cs : List Char) : Bool :=
  match cs with
  | a :: b :: c :: _ => a == '2' && b == '5' && c == '4'
  | _ => false

/-- Models `normalizeKenyanPhone` from `src/unnamed/part_000` lines 18–45 (identical
in `src/unnamed/part_001`): strips whitespace and hyphens, drops a leading
`+`, then accepts `254`-prefixed 12-character input whose 4th character is
`7` or `1` (returned unchanged), `0(7|1)\d{8}` (leading zero replaced by
`254`), or `(7|1)\d{8}` (prefixed with `254`). -/
def normalizeKenyanPhoneP0Core (input : List Char) : Except String (List Char) :=
  let raw := cleanP0 input
  if raw.isEmpty then .error "Phone number is required."
  else
    let p := dropPlus raw
    if startsWith254 p && p.length == 12 then
      if p[3]? == some '7' || p[3]? == some '1' then .ok p
      else .error "Invalid Kenyan phone number."
    else if shapeLocal10 p then .ok ('2' :: '5' :: '4' :: p.drop 1)
    else if shapeBare9 p then .ok ('2' :: '5' :: '4' :: p)
    else .error "Invalid phone number format."

/-- String-level wrapper for the `part_000` normalizer. -/
def normalizeKenyanPhoneP0 (s : String) : Except String String :=
  (normalizeKenyanPhoneP0Core s.toList).map List.asString

/-- Models `normalizeKenyanPhone` from `src/Backend/Frontend/js/auth.js` lines 16–31:
strips whitespace only, drops a leading `+`, then accepts a `254` prefix
followed by `(7|1)\d{8}`, or `0(7|1)\d{8}` (leading zero replaced by `254`);
there is no bare nine-digit branch. -/
def normalizeKenyanPhoneACore (input : List Char) : Except String (List Char) :=
  let raw := cleanA input
  if raw.isEmpty then .error "Phone number is required."
  else
    let p := dropPlus raw
    if startsWith254 p then
      if shapeBare9 (p.drop 3) then .ok ('2' :: '5' :: '4' :: p.drop 3)
      else .error "Invalid Kenyan phone number."
    else if shapeLocal10 p then .ok ('2' :: '5' :: '4' :: p.drop 1)
    else .error "Invalid Kenyan phone number. Use format: 07XXXXXXXX or 2547XXXXXXXX"

/-- String-level wrapper for the `auth.js` normalizer. -/
def normalizeKenyanPhoneA (s : String) : Except String String :=
  (normalizeKenyanPhoneACore s.toList).map List.asString

/-! ### JavaScript string and number coercions -/

/-- Rendering of a JavaScript number as a string.  All numbers reaching
`ToString` in this codebase are integers, rendered exactly as JavaScript
does; for non-integers the model falls back to the exact fraction. -/
def jsNumToString (q : ℚ) : String :=
  if q.den = 1 then toString q.num else toString q.num ++ "/" ++ toString q.den

mutual

/-- JavaScript `ToString` on JSON-representable values (as applied by
`new Error(x)` to a non-string argument and by array join). -/
def jsToString : Json → String
  | .null => "null"
  | .bool true => "true"
  | .bool false => "false"
  | .num q => jsNumToString q
  | .str s => s
  | .arr xs => jsJoin xs
  | .obj _ => "[object Object]"

/-- Models `Array.prototype.toString`, i.e. `join(",")`; `null` elements render as
the empty string. -/
def jsJoin : List Json → String
  | [] => ""
  | [.null] => ""
  | [x] => jsToString x
  | .null :: xs => "," ++ jsJoin xs
  | x :: xs => jsToString x ++ "," ++ jsJoin xs

end

/-- Models `String.prototype.trim` (JavaScript whitespace at both ends). -/
def jsTrim (cs : List Char) : List Char :=
  ((cs.dropWhile isJsWs).reverse.dropWhile isJsWs).reverse

/-- Numeric value of a list of decimal digits. -/
def digitsVal (ds : List Char) : ℕ :=
  ds.foldl (fun acc c => 10 * acc + (c.toNat - 48)) 0

/-- Digit value of `c` in base `b`, if valid. -/
def radixDigitVal (b : ℕ) (c : Char) : Option ℕ :=
  let n := c.toNat
  let v :=
    if 48 ≤ n ∧ n ≤ 57 then some (n - 48)
    else if 97 ≤ n ∧ n ≤ 122 then some (n - 87)
    else if 65 ≤ n ∧ n ≤ 90 then some (n - 55)
    else none
  match v with
  | some d => if d < b then some d else none
  | none => none

/-- The exact rational `m * 10 ^ e` (kernel-computable: no field
operations). -/
def decValue (m : ℤ) (e : ℤ) : ℚ :=
  if 0 ≤ e then ((m * 10 ^ e.toNat : ℤ) : ℚ)
  else mkRat m (10 ^ (-e).toNat)

/-- An unsigned `StrDecimalLiteral` body: `digits [. digits] [e[±]digits]`,
requiring at least one digit in the integer or fraction part and full
consumption of the input. -/
def parseUnsignedDec (cs : List Char) : Option ℚ :=
  let ip := cs.takeWhile isDigitC
  let r1 := cs.dropWhile isDigitC
  let hasDot : Bool := match r1 with
    | '.' :: _ => true
    | _ => false
  let fp := if hasDot then r1.tail.takeWhile isDigitC else []
  let r2 := if hasDot then r1.tail.dropWhile isDigitC else r1
  if ip.isEmpty && fp.isEmpty then none
  else
    let m : ℤ := (digitsVal ip * 10 ^ fp.length + digitsVal fp : ℕ)
    match r2 with
    | [] => some (decValue m (-(fp.length : ℤ)))
    | e :: r3 =>
      if e == 'e' || e == 'E' then
        let (esgn, r4) : ℤ × List Char :=
          match r3 with
          | '+' :: r => (1, r)
          | '-' :: r => (-1, r)
          | r => (1, r)
        let ed := r4.takeWhile isDigitC
        if ed.isEmpty || !(r4.dropWhile isDigitC).isEmpty then none
        else some (decValue m (esgn * (digitsVal ed : ℤ) - (fp.length : ℤ)))
      else none

/-- A signed decimal body or `Infinity`. -/
def parseSignedBody (sgn : ℚ) (r : List Char) : JsNum :=
  if r = ['I', 'n', 'f', 'i', 'n', 'i', 't', 'y'] then
    (if sgn > 0 then .posInf else .negInf)
  else
    match parseUnsignedDec r with
    | some m => .fin (sgn * m)
    | none => .nan

/-- A radix-prefixed literal body (after `0x`, `0o` or `0b`). -/
def parseRadixBody (b : ℕ) (r : List Char) : JsNum :=
  if r.isEmpty then .nan
  else
    match r.mapM (radixDigitVal b) with
    | some ds => .fin (((ds.foldl (fun acc d => b * acc + d) 0 : ℕ) : ℤ) : ℚ)
    | none => .nan

/-- JavaScript `ToNumber` on a string (`Number(s)`): trim, empty maps to 0,
otherwise a `StrNumericLiteral` (optionally signed decimal or `Infinity`,
or an unsigned `0x`/`0o`/`0b` radix literal); anything else is NaN. -/
def strToNum (s : String) : JsNum :=
  match jsTrim s.toList with
  | [] => .fin 0
  | '+' :: r => parseSignedBody 1 r
  | '-' :: r => parseSignedBody (-1) r
  | '0' :: 'x' :: r => parseRadixBody 16 r
  | '0' :: 'X' :: r => parseRadixBody 16 r
  | '0' :: 'o' :: r => parseRadixBody 8 r
  | '0' :: 'O' :: r => parseRadixBody 8 r
  | '0' :: 'b' :: r => parseRadixBody 2 r
  | '0' :: 'B' :: r => parseRadixBody 2 r
  | r => parseSignedBody 1 r

/-- JavaScript `ToNumber` of an optional value (`none` is `undefined`, which
coerces to NaN; arrays coerce through their join string; plain objects
coerce through "[object Object]", i.e. NaN). -/
def jsToNumber : Option Json → JsNum
  | none => .nan
  | some .null => .fin 0
  | some (.bool b) => .fin (if b then 1 else 0)
  | some (.num q) => .fin q
  | some (.str s) => strToNum s
  | some (.arr xs) => strToNum (jsJoin xs)
  | some (.obj _) => .nan

/-! ### `JSON.parse` (strict JSON grammar) -/

/-- JSON insignificant whitespace. -/
def jsonWs (c : Char) : Bool :=
  c == ' ' || c == '\t' || c == '\n' || c == '\r'

/-- Skip JSON whitespace. -/
def skipWs (cs : List Char) : List Char :=
  cs.dropWhile jsonWs

/-- Value of a hexadecimal digit. -/
def hexVal (c : Char) : Option ℕ :=
  radixDigitVal 16 c

/-- Body of a JSON string after the opening quote: ordinary characters
(controls below 0x20 are rejected) and the escapes of the JSON grammar. -/
def parseJStringAux : List Char → List Char → Option (List Char × List Char)
  | acc, '"' :: rest => some (acc.reverse, rest)
  | acc, '\\' :: '"' :: rest => parseJStringAux ('"' :: acc) rest
  | acc, '\\' :: '\\' :: rest => parseJStringAux ('\\' :: acc) rest
  | acc, '\\' :: '/' :: rest => parseJStringAux ('/' :: acc) rest
  | acc, '\\' :: 'b' :: rest => parseJStringAux ('\x08' :: acc) rest
  | acc, '\\' :: 'f' :: rest => parseJStringAux ('\x0c' :: acc) rest
  | acc, '\\' :: 'n' :: rest => parseJStringAux ('\n' :: acc) rest
  | acc, '\\' :: 'r' :: rest => parseJStringAux ('\r' :: acc) rest
  | acc, '\\' :: 't' :: rest => parseJStringAux ('\t' :: acc) rest
  | acc, '\\' :: 'u' :: h1 :: h2 :: h3 :: h4 :: rest =>
    match hexVal h1, hexVal h2, hexVal h3, hexVal h4 with
    | some a, some b, some c, some d =>
      parseJStringAux (Char.ofNat (4096 * a + 256 * b + 16 * c + d) :: acc) rest
    | _, _, _, _ => none
  | _, '\\' :: _ => none
  | acc, c :: rest => if c.toNat < 32 then none else parseJStringAux (c :: acc) rest
  | _, [] => none

/-- A JSON number literal: `-? (0 | [1-9]digits) (. digits+)? ([eE][±]?digits+)?`,
returning the exact rational value and the unconsumed input. -/
def parseJNumber (cs : List Char) : Option (ℚ × List Char) :=
  let (neg, r0) : Bool × List Char :=
    match cs with
    | '-' :: r => (true, r)
    | r => (false, r)
  let ip := r0.takeWhile isDigitC
  let r1 := r0.dropWhile isDigitC
  if ip.isEmpty then none
  else if 1 < ip.length ∧ ip.headD ' ' == '0' then none
  else
    let hasDot : Bool := match r1 with
      | '.' :: _ => true
      | _ => false
    let fp := if hasDot then r1.tail.takeWhile isDigitC else []
    let r2 := if hasDot then r1.tail.dropWhile isDigitC else r1
    if hasDot && fp.isEmpty then none
    else
      let m0 : ℤ := (digitsVal ip * 10 ^ fp.length + digitsVal fp : ℕ)
      let m : ℤ := if neg then -m0 else m0
      match r2 with
      | 'e' :: r3 | 'E' :: r3 =>
        let (esgn, r4) : ℤ × List Char :=
          match r3 with
          | '+' :: r => (1, r)
          | '-' :: r => (-1, r)
          | r => (1, r)
        let ed := r4.takeWhile isDigitC
        if ed.isEmpty then none
        else
          some (decValue m (esgn * (digitsVal ed : ℤ) - (fp.length : ℤ)),
            r4.dropWhile isDigitC)
      | r2 => some (decValue m (-(fp.length : ℤ)), r2)

mutual

/-- A JSON value (fuelled recursive descent; the fuel is an upper bound on
the nesting depth and is always sufficient at the top entry point). -/
def parseJValue : ℕ → List Char → Option (Json × List Char)
  | 0, _ => none
  | _ + 1, '"' :: rest =>
    match parseJStringAux [] rest with
    | some (cs, r) => some (.str cs.asString, r)
    | none => none
  | fuel + 1, '{' :: rest =>
    match skipWs rest with
    | '}' :: r => some (.obj [], r)
    | r => parseJMembers fuel r []
  | fuel + 1, '[' :: rest =>
    match skipWs rest with
    | ']' :: r => some (.arr [], r)
    | r => parseJElems fuel r []
  | _ + 1, 't' :: 'r' :: 'u' :: 'e' :: rest => some (.bool true, rest)
  | _ + 1, 'f' :: 'a' :: 'l' :: 's' :: 'e' :: rest => some (.bool false, rest)
  | _ + 1, 'n' :: 'u' :: 'l' :: 'l' :: rest => some (.null, rest)
  | _ + 1, cs =>
    match parseJNumber cs with
    | some (q, r) => some (.num q, r)
    | none => none

/-- Members of a JSON object after `{` (at a position where a key is
expected). -/
def parseJMembers : ℕ → List Char → List (String × Json) →
    Option (Json × List Char)
  | 0, _, _ => none
  | fuel + 1, cs, acc =>
    match cs with
    | '"' :: rest =>
      match parseJStringAux [] rest with
      | some (k, r1) =>
        match skipWs r1 with
        | ':' :: r2 =>
          match parseJValue fuel (skipWs r2) with
          | some (v, r3) =>
            match skipWs r3 with
            | ',' :: r4 => parseJMembers fuel (skipWs r4) (acc ++ [(k.asString, v)])
            | '}' :: r4 => some (.obj (acc ++ [(k.asString, v)]), r4)
            | _ => none
          | none => none
        | _ => none
      | none => none
    | _ => none

/-- Elements of a JSON array after `[` (at a position where a value is
expected). -/
def parseJElems : ℕ → List Char → List Json → Option (Json × List Char)
  | 0, _, _ => none
  | fuel + 1, cs, acc =>
    match parseJValue fuel (skipWs cs) with
    | some (v, r1) =>
      match skipWs r1 with
      | ',' :: r2 => parseJElems fuel r2 (acc ++ [v])
      | ']' :: r2 => some (.arr (acc ++ [v]), r2)
      | _ => none
    | none => none

end

/-- Models `JSON.parse` on a character list: a single JSON value surrounded by
optional whitespace. -/
def jsonParse (cs : List Char) : Option Json :=
  let c1 := skipWs cs
  match parseJValue (c1.length + 2) c1 with
  | some (j, rest) => if (skipWs rest).isEmpty then some j else none
  | none => none

/-! ### `atob` (forgiving base64 decode) and JWT payload parsing -/

/-- ASCII whitespace stripped by the forgiving-base64 decoder. -/
def isB64Ws (c : Char) : Bool :=
  c == '\t' || c == '\n' || c == '\x0c' || c == '\r' || c == ' '

/-- Value of a base64 alphabet character. -/
def b64CharVal (c : Char) : Option ℕ :=
  let n := c.toNat
  if 65 ≤ n ∧ n ≤ 90 then some (n - 65)
  else if 97 ≤ n ∧ n ≤ 122 then some (n - 71)
  else if 48 ≤ n ∧ n ≤ 57 then some (n + 4)
  else if c == '+' then some 62
  else if c == '/' then some 63
  else none

/-- Reassemble 6-bit groups into bytes, discarding leftover bits. -/
def b64Bytes : List ℕ → List ℕ
  | a :: b :: c :: d :: rest =>
    (4 * a + b / 16) :: ((b % 16) * 16 + c / 4) :: ((c % 4) * 64 + d) :: b64Bytes rest
  | [a, b] => [4 * a + b / 16]
  | [a, b, c] => [4 * a + b / 16, (b % 16) * 16 + c / 4]
  | _ => []

/-- Models `atob`: the WHATWG forgiving-base64 decode — strip ASCII whitespace,
allow up to two trailing `=` when the length is a multiple of 4, reject a
remaining length of 1 mod 4 and any character outside the alphabet, and
return the decoded bytes as a latin-1 string. -/
def atobL (input : List Char) : Option (List Char) :=
  let d0 := input.filter (fun c => !isB64Ws c)
  let d1 :=
    if d0.length % 4 == 0 then
      match d0.reverse with
      | '=' :: '=' :: r => r.reverse
      | '=' :: r => r.reverse
      | _ => d0
    else d0
  if d1.length % 4 == 1 then none
  else
    match d1.mapM b64CharVal with
    | some vals => some ((b64Bytes vals).map Char.ofNat)
    | none => none

/-- Models `token.split(".")`. -/
def splitOnDot : List Char → List (List Char)
  | [] => [[]]
  | c :: rest =>
    match splitOnDot rest with
    | [] => [[]]
    | g :: gs => if c == '.' then [] :: g :: gs else (c :: g) :: gs

/-- base64url to base64: `-` to `+` and `_` to `/`. -/
def b64urlToB64 (cs : List Char) : List Char :=
  cs.map (fun c => if c == '-' then '+' else if c == '_' then '/' else c)

/-- Models `parseJWT` from `src/unnamed/part_000` lines 61–77: empty token and
wrong segment count give `null`; the second segment is base64url-mapped,
padded with `=` to a multiple of 4, `atob`-decoded and `JSON.parse`d; any
failure is caught and gives `null`. -/
def parseJWTP0 (token : String) : Option Json :=
  if token = "" then none
  else
    let parts := splitOnDot token.toList
    if parts.length != 3 then none
    else
      match parts[1]? with
      | none => none
      | some seg =>
        let payload := b64urlToB64 seg
        let padded := payload ++ List.replicate ((4 - payload.length % 4) % 4) '='
        match atobL padded with
        | none => none
        | some bytes => jsonParse bytes

/-- Models `parseJWT` from `auth.js` lines 48–62: as in part_000 but without `=`
padding before `atob`. -/
def parseJWTA (token : String) : Option Json :=
  if token = "" then none
  else
    let parts := splitOnDot token.toList
    if parts.length != 3 then none
    else
      match parts[1]? with
      | none => none
      | some seg =>
        match atobL (b64urlToB64 seg) with
        | none => none
        | some bytes => jsonParse bytes

/-- Models `isTokenExpired` from `src/unnamed/part_000` lines 79–85: no parseable
payload or falsy `exp` claim means expired; otherwise compare
`Math.floor(Date.now()/1000) >= exp - 30` under JavaScript number
semantics. -/
def isTokenExpiredP0 (token : String) (nowMs : ℤ) : Bool :=
  match parseJWTP0 token with
  | none => true
  | some payload =>
    if !payload.truthy then true
    else if !Json.truthyOpt (payload.get "exp") then true
    else JsNum.ge (.fin ((nowMs.fdiv 1000 : ℤ) : ℚ))
      (JsNum.sub (jsToNumber (payload.get "exp")) (.fin 30))

/-- Models `isTokenExpired` from `auth.js` lines 64–74: no parseable payload means
expired, but a parseable payload with a falsy `exp` claim means NOT expired
(the code comments "No expiry claim" and returns false); otherwise compare
`Date.now() >= exp * 1000 - 30000`. -/
def isTokenExpiredA (token : String) (nowMs : ℤ) : Bool :=
  match parseJWTA token with
  | none => true
  | some payload =>
    if !payload.truthy then true
    else if !Json.truthyOpt (payload.get "exp") then false
    else JsNum.ge (.fin (nowMs : ℚ))
      (JsNum.sub (JsNum.mul (jsToNumber (payload.get "exp")) (.fin 1000)) (.fin 30000))

/-! ### Session store, API client, login, payment adapter -/

/-- Models `getToken()`: `localStorage.getItem("access_token") || ""`.  The store
is `none` when the key is absent. -/
def getToken (st : Option Json) : Json :=
  match st with
  | none => .str ""
  | some v => if v.truthy then v else .str ""

/-- Models `setToken(token)`: persists only truthy values (no-op otherwise). -/
def setToken (st : Option Json) (tok : Json) : Option Json :=
  if tok.truthy then some tok else st

/-- An HTTP response as observed by the client: status code and body text.
The model takes the response as a parameter (the transport delivered it). -/
structure HttpResp where
  status : ℕ
  body : String

/-- Models `Response.ok`: status in [200, 300). -/
def respOk (r : HttpResp) : Bool :=
  200 ≤ r.status && r.status < 300

/-- A thrown JavaScript exception: an `Error` with a message, or the
`SyntaxError` escaping the bare `JSON.parse` of part_000's `api`. -/
inductive JsErr where
  | error (msg : String)
  | syntaxError

/-- Outcome of one `api` call: the settled result, the token store after the
call, and whether the network request was issued. -/
structure ApiResult where
  result : Except JsErr Json
  store : Option Json
  network : Bool

/-- Models `v || fallback` on an optionally-present property. -/
def jsOrOpt (v : Option Json) (fallback : Json) : Json :=
  match v with
  | some x => if x.truthy then x else fallback
  | none => fallback

/-- Body handling of part_000's `api`: `text ? JSON.parse(text) : null`,
with no try/catch — a parse failure throws. -/
def parseBodyP0 (body : String) : Except JsErr Json :=
  if body = "" then .ok .null
  else
    match jsonParse body.toList with
    | some j => .ok j
    | none => .error .syntaxError

/-- Post-authentication part of `api` from `src/unnamed/part_000` lines
120–136: read and parse the body (a parse failure propagates before the
status check), return parsed data on a 2xx status; otherwise clear the
token exactly on 401/403 and throw `data?.error || data?.detail ||
"Request failed"`. -/
def apiP0Net (st : Option Json) (resp : HttpResp) : ApiResult :=
  match parseBodyP0 resp.body with
  | .error e => ⟨.error e, st, true⟩
  | .ok data =>
    if respOk resp then ⟨.ok data, st, true⟩
    else
      ⟨.error (.error (jsToString (jsOrOpt (data.get "error")
          (jsOrOpt (data.get "detail") (.str "Request failed"))))),
        if resp.status == 401 || resp.status == 403 then none else st, true⟩

/-- Models `api` from `src/unnamed/part_000` lines 103–137 (identical in
`src/unnamed/part_001`): with `auth`, an absent (falsy) token fails fast
with "Not authenticated." and no network call; an expired token is removed
and fails fast with "Session expired. Please login again."; otherwise the
request proceeds. -/
def apiP0 (st : Option Json) (auth : Bool) (nowMs : ℤ) (resp : HttpResp) : ApiResult :=
  if auth && !(getToken st).truthy then
    ⟨.error (.error "Not authenticated."), st, false⟩
  else if auth && isTokenExpiredP0 (jsToString (getToken st)) nowMs then
    ⟨.error (.error "Session expired. Please login again."), none, false⟩
  else apiP0Net st resp

/-- Strict equality test `v === "Request failed"`. -/
def isRequestFailedStr (v : Json) : Bool :=
  match v with
  | .str s => s == "Request failed"
  | _ => false

/-- Post-authentication part of `api` from `auth.js` lines 110–174: the
body parse failure is caught (`data = {detail: text}`); on a non-2xx
status the message is extracted in priority order error, detail, message,
string body; then a status-specific switch overrides it for 403/404/500,
clears the token on 401/403, and appends the status code to the generic
fallback only in the default branch. -/
def apiANet (st : Option Json) (resp : HttpResp) : ApiResult :=
  let data : Json :=
    if resp.body = "" then .null
    else
      match jsonParse resp.body.toList with
      | some j => j
      | none => .obj [("detail", .str resp.body)]
  if respOk resp then ⟨.ok data, st, true⟩
  else
    let m1 : Json :=
      if !data.truthy then .str "Request failed"
      else if Json.truthyOpt (data.get "error") then (data.get "error").getD .null
      else if Json.truthyOpt (data.get "detail") then (data.get "detail").getD .null
      else if Json.truthyOpt (data.get "message") then (data.get "message").getD .null
      else
        match data with
        | .str s => .str s
        | _ => .str "Request failed"
    match resp.status with
    | 400 => ⟨.error (.error (jsToString m1)), st, true⟩
    | 401 =>
      ⟨.error (.error (jsToString (if m1.truthy then m1
          else .str "Invalid credentials. Please check your phone number and password."))),
        none, true⟩
    | 403 => ⟨.error (.error "Access denied. Please login again."), none, true⟩
    | 404 => ⟨.error (.error "Account not found. Please check your phone number or register."), st, true⟩
    | 500 => ⟨.error (.error "Server error. Please try again later."), st, true⟩
    | s =>
      ⟨.error (.error (jsToString (if !m1.truthy || isRequestFailedStr m1 then
          .str ("Request failed (" ++ toString s ++ ")") else m1))), st, true⟩

/-- Models `api` from `auth.js` lines 93–175: with `auth`, a present-but-expired
token is removed and fails fast; an ABSENT token does not fail — the
request proceeds without an Authorization header. -/
def apiA (st : Option Json) (auth : Bool) (nowMs : ℤ) (resp : HttpResp) : ApiResult :=
  if auth && (getToken st).truthy && isTokenExpiredA (jsToString (getToken st)) nowMs then
    ⟨.error (.error "Session expired. Please login again."), none, false⟩
  else apiANet st resp

/-- The terminal XHR event of one `apiFormData` call. -/
inductive XhrEvent where
  | load (resp : HttpResp)
  | netError
  | timeout

/-- Models `apiFormData` from `src/unnamed/part_001` lines 154–206: parse failures
are caught (`data = {error: text || "Unknown error"}`); 2xx resolves with
the data, any other status rejects with `data?.error || data?.detail ||
"Request failed"`.  The token store is never written. -/
def apiFormData (st : Option Json) (_auth : Bool) (ev : XhrEvent) : ApiResult :=
  match ev with
  | .netError => ⟨.error (.error "Network error. Please check your connection."), st, true⟩
  | .timeout => ⟨.error (.error "Request timed out. Please try again."), st, true⟩
  | .load resp =>
    let data : Json :=
      if resp.body = "" then .null
      else
        match jsonParse resp.body.toList with
        | some j => j
        | none => .obj [("error", if resp.body = "" then .str "Unknown error" else .str resp.body)]
    if 200 ≤ resp.status && resp.status < 300 then ⟨.ok data, st, true⟩
    else
      ⟨.error (.error (jsToString (jsOrOpt (data.get "error")
          (jsOrOpt (data.get "detail") (.str "Request failed"))))), st, true⟩

/-- Models `Auth.login` from `src/unnamed/part_000` lines 168–187: require phone
and password, normalize the phone (throwing locally on failure), post to
the login endpoint without credentials, require a truthy `access` field
("Login failed." otherwise), and only then store the token. -/
def loginP0 (phone password : String) (st : Option Json) (nowMs : ℤ)
    (resp : HttpResp) : Except JsErr Json × Option Json × Bool :=
  if phone = "" || password = "" then
    (.error (.error "Phone and password required."), st, false)
  else
    match normalizeKenyanPhoneP0 phone with
    | .error e => (.error (.error e), st, false)
    | .ok _ =>
      let r := apiP0 st false nowMs resp
      match r.result with
      | .error e => (.error e, r.store, r.network)
      | .ok data =>
        match data.get "access" with
        | some a =>
          if a.truthy then (.ok data, setToken r.store a, r.network)
          else (.error (.error "Login failed."), r.store, r.network)
        | none => (.error (.error "Login failed."), r.store, r.network)

/-- Models `Auth.login` from `auth.js` lines 202–225. -/
def loginA (phone password : String) (st : Option Json) (nowMs : ℤ)
    (resp : HttpResp) : Except JsErr Json × Option Json × Bool :=
  if phone = "" || (jsTrim phone.toList).isEmpty then
    (.error (.error "Phone number is required."), st, false)
  else if password = "" then
    (.error (.error "Password is required."), st, false)
  else
    match normalizeKenyanPhoneA phone with
    | .error e => (.error (.error e), st, false)
    | .ok _ =>
      let r := apiA st false nowMs resp
      match r.result with
      | .error e => (.error e, r.store, r.network)
      | .ok data =>
        if !data.truthy then
          (.error (.error "Login failed. Please try again."), r.store, r.network)
        else
          match data.get "access" with
          | some a =>
            if a.truthy then (.ok data, setToken r.store a, r.network)
            else (.error (.error "Login failed. Please try again."), r.store, r.network)
          | none => (.error (.error "Login failed. Please try again."), r.store, r.network)

/-- The named arguments of `Paystack.payServiceFeeInline`. -/
structure PayParams where
  key : Json
  email : Json
  amount : Json
  reference : Json
  metadata : Json

/-- The first settling event of one payment attempt: the provider invokes
the completion callback with a response payload, or the user closes the
widget. -/
inductive PayEvent where
  | callback (response : Option Json)
  | close

/-- Models `Paystack.payServiceFeeInline` from `src/Backend/Frontend/js/paystack.js`
lines 4–38: reject immediately if the provider script is missing, the public
key is falsy, or the amount does not coerce to a finite positive number;
reject if opening the widget throws; then settle on the first event — a
callback payload without a truthy `reference` rejects with the
missing-reference error, a callback with a reference resolves with exactly
that reference, and a close rejects with the window-closed error. -/
def payServiceFeeInline (popLoaded : Bool) (p : PayParams) (openThrows : Bool)
    (ev : PayEvent) : Except String Json :=
  if !popLoaded then .error "Paystack script failed to load."
  else if !p.key.truthy then .error "Missing Paystack public key."
  else
    match jsToNumber (some p.amount) with
    | .fin amt =>
      if amt ≤ 0 then .error "Invalid fee amount."
      else if openThrows then .error "Failed to open Paystack payment window."
      else
        match ev with
        | .close => .error "Payment window closed."
        | .callback r =>
          if !Json.truthyOpt r || !Json.truthyOpt (r.bind (fun v => v.get "reference")) then
            .error "Payment callback missing reference."
          else .ok ((r.bind (fun v => v.get "reference")).getD .null)
    | _ => .error "Invalid fee amount."

theorem computeServiceFee_intCast (a : ℤ) :
    computeServiceFee (.fin (a : ℚ)) =
      (if a < 1000 then .error "Minimum loan amount is 1,000."
       else if a > 60000 then .error "Maximum loan amount is 60,000."
       else
         match brackets.find? (fun b => coversB b a) with
         | some b => .ok ⟨b.fee, b.label⟩
         | none => .error "Unsupported amount.") := by
  have hfloor : ¬ ((⌊(a : ℚ)⌋ : ℚ) ≠ (a : ℚ)) := by
    simp [Int.floor_intCast]
  have hpred : (fun b : FeeBracket => decide ((b.min : ℚ) ≤ (a : ℚ)) && decide ((a : ℚ) ≤ (b.max : ℚ)))
      = fun b => coversB b a := by
    funext b
    unfold coversB
    congr 1
    · exact decide_eq_decide.mpr Int.cast_le
    · exact decide_eq_decide.mpr Int.cast_le
  simp only [computeServiceFee]
  rw [if_neg hfloor, hpred]
  by_cases h1 : a < 1000
  · rw [if_pos (show (a : ℚ) < 1000 by exact_mod_cast h1), if_pos h1]
  · rw [if_neg (show ¬ (a : ℚ) < 1000 by exact_mod_cast h1), if_neg h1]
    by_cases h2 : a > 60000
    · rw [if_pos (show (a : ℚ) > 60000 by exact_mod_cast h2), if_pos h2]
    · rw [if_neg (show ¬ (a : ℚ) > 60000 by exact_mod_cast h2), if_neg h2]

/-- No two distinct brackets of the table cover the same integer amount. -/
theorem brackets_cover_unique (a : ℤ) :
    ∀ b1 ∈ brackets, ∀ b2 ∈ brackets,
      coversB b1 a = true → coversB b2 a = true → b1 = b2 := by
  intro b1 h1 b2 h2 hc1 hc2
  fin_cases h1 <;> fin_cases h2 <;>
    first
      | rfl
      | (exfalso; simp only [coversB, Bool.and_eq_true, decide_eq_true_eq] at hc1 hc2; omega)

/-- C1 (amended): for every integer amount in [1000, 60000], the lookup in
`Loan.computeServiceFee` matches at most one bracket of the table; if some
bracket covers the amount the result is that bracket's fee and label, and if
no bracket covers it (the amount falls in one of the gaps of the table, e.g.
1500) the lookup fails with "Unsupported amount." rather than succeeding. -/
theorem fee_lookup_brackets (a : ℤ) (h1 : 1000 ≤ a) (h2 : a ≤ 60000) :
    (∀ b1 ∈ brackets, ∀ b2 ∈ brackets,
        coversB b1 a = true → coversB b2 a = true → b1 = b2)
    ∧ ((∃ b ∈ brackets, coversB b a = true) →
        ∃ b ∈ brackets, coversB b a = true ∧
          computeServiceFee (.fin (a : ℚ)) = .ok ⟨b.fee, b.label⟩)
    ∧ ((∀ b ∈ brackets, coversB b a = false) →
        computeServiceFee (.fin (a : ℚ)) = .error "Unsupported amount.") := by
  refine ⟨brackets_cover_unique a, ?_, ?_⟩
  · rintro ⟨b, hb, hcov⟩
    have hsome : (brackets.find? (fun b => coversB b a)).isSome :=
      List.find?_isSome.mpr ⟨b, hb, hcov⟩
    obtain ⟨b', hb'⟩ := Option.isSome_iff_exists.mp hsome
    have hcov' : coversB b' a = true := by
      have h := List.find?_some hb'
      simpa using h
    refine ⟨b', List.mem_of_find?_eq_some hb', hcov', ?_⟩
    rw [computeServiceFee_intCast, if_neg (by omega), if_neg (by omega), hb']
  · intro hnone
    rw [computeServiceFee_intCast, if_neg (by omega), if_neg (by omega),
      List.find?_eq_none.mpr (fun x hx => by simp [hnone x hx])]

/-- Witness for `fee_lookup_brackets` at the concrete in-bracket amount 5000. -/
theorem fee_lookup_brackets_witness :
    ∃ b ∈ brackets, coversB b 5000 = true ∧
      computeServiceFee (.fin ((5000 : ℤ) : ℚ)) = .ok ⟨b.fee, b.label⟩ :=
  (fee_lookup_brackets 5000 (by decide) (by decide)).2.1
    ⟨⟨3000, 5000, 680, "KES 3,000–5,000"⟩, by decide, by decide⟩

/-- Counterexample to C1 as stated: 1500 is an integer in [1000, 60000], yet
`computeServiceFee` does not return a bracket for it — it falls in the gap
between the [1000,1000] and [2000,2000] brackets and fails. -/
theorem fee_lookup_total_counterexample :
    (1000 ≤ (1500 : ℤ) ∧ (1500 : ℤ) ≤ 60000)
    ∧ computeServiceFee (.fin ((1500 : ℤ) : ℚ)) = .error "Unsupported amount." := by
  refine ⟨by decide, ?_⟩
  rw [computeServiceFee_intCast]; decide

/-- C6: `Loan.computeServiceFee` validates in a fixed order — a non-finite or
non-integral amount fails with the whole-number error (regardless of range);
an integral amount below 1000 fails with the minimum-specific error; one above
60000 fails with the maximum-specific error; in-range lookup follows the
nine-band table, so feeFor(1000) = 200, feeFor(5000) = 680,
feeFor(60000) = 6000, and feeFor(60001) fails. -/
theorem fee_validation_order :
    (∀ x : JsNum, x.isFinite = false →
        computeServiceFee x = .error "Amount must be a whole number.")
    ∧ (∀ q : ℚ, (⌊q⌋ : ℚ) ≠ q →
        computeServiceFee (.fin q) = .error "Amount must be a whole number.")
    ∧ (∀ q : ℚ, (⌊q⌋ : ℚ) = q → q < 1000 →
        computeServiceFee (.fin q) = .error "Minimum loan amount is 1,000.")
    ∧ (∀ q : ℚ, (⌊q⌋ : ℚ) = q → q > 60000 →
        computeServiceFee (.fin q) = .error "Maximum loan amount is 60,000.")
    ∧ computeServiceFee (.fin 1000) = .ok ⟨200, "KES 1,000"⟩
    ∧ computeServiceFee (.fin 5000) = .ok ⟨680, "KES 3,000–5,000"⟩
    ∧ computeServiceFee (.fin 60000) = .ok ⟨6000, "KES 53,000–60,000"⟩
    ∧ computeServiceFee (.fin 60001) = .error "Maximum loan amount is 60,000." := by
  refine ⟨?_, ?_, ?_, ?_, by decide, by decide, by decide, by decide⟩
  · intro x h
    cases x <;> simp [JsNum.isFinite] at h ⊢ <;> rfl
  · intro q h
    simp only [computeServiceFee]
    rw [if_pos h]
  · intro q h hlt
    simp only [computeServiceFee]
    rw [if_neg (not_not.mpr h), if_pos hlt]
  · intro q h hgt
    simp only [computeServiceFee]
    rw [if_neg (not_not.mpr h), if_neg (by linarith), if_pos hgt]

/-- Witness for `fee_validation_order` at concrete non-finite, fractional,
below-minimum and above-maximum amounts. -/
theorem fee_validation_order_witness :
    computeServiceFee .nan = .error "Amount must be a whole number."
    ∧ computeServiceFee (.fin (1/2)) = .error "Amount must be a whole number."
    ∧ computeServiceFee (.fin 999) = .error "Minimum loan amount is 1,000."
    ∧ computeServiceFee (.fin 70000) = .error "Maximum loan amount is 60,000." :=
  ⟨fee_validation_order.1 .nan (by decide),
   fee_validation_order.2.1 (1/2) (by norm_num),
   fee_validation_order.2.2.1 999 (by norm_num) (by norm_num),
   fee_validation_order.2.2.2.1 70000 (by norm_num) (by norm_num)⟩

/-! ### Phone normalization lemmas -/

theorem startsWith254_exists {cs : List Char} (h : startsWith254 cs = true) :
    ∃ t, cs = '2' :: '5' :: '4' :: t := by
  cases cs with
  | nil => simp [startsWith254] at h
  | cons a t1 =>
    cases t1 with
    | nil => simp [startsWith254] at h
    | cons b t2 =>
      cases t2 with
      | nil => simp [startsWith254] at h
      | cons c t3 =>
        simp only [startsWith254, Bool.and_eq_true, beq_iff_eq] at h
        obtain ⟨⟨ha, hb⟩, hc⟩ := h
        subst ha; subst hb; subst hc
        exact ⟨t3, rfl⟩

theorem shapeLocal10_spec {cs : List Char} (h : shapeLocal10 cs = true) :
    ∃ c rest, cs = '0' :: c :: rest ∧ (c = '7' ∨ c = '1') ∧
      rest.length = 8 ∧ rest.all isDigitC = true := by
  cases cs with
  | nil => simp [shapeLocal10] at h
  | cons z t =>
    cases t with
    | nil => simp [shapeLocal10] at h
    | cons c rest =>
      simp only [shapeLocal10, Bool.and_eq_true, Bool.or_eq_true, beq_iff_eq] at h
      obtain ⟨⟨⟨hz, hc⟩, hlen⟩, hall⟩ := h
      subst hz
      exact ⟨c, rest, rfl, hc, hlen, hall⟩

theorem shapeBare9_spec {cs : List Char} (h : shapeBare9 cs = true) :
    ∃ c rest, cs = c :: rest ∧ (c = '7' ∨ c = '1') ∧
      rest.length = 8 ∧ rest.all isDigitC = true := by
  cases cs with
  | nil => simp [shapeBare9] at h
  | cons c rest =>
    simp only [shapeBare9, Bool.and_eq_true, Bool.or_eq_true, beq_iff_eq] at h
    obtain ⟨⟨hc, hlen⟩, hall⟩ := h
    exact ⟨c, rest, rfl, hc, hlen, hall⟩

/-- A digit survives the part_000 cleaning (it is neither whitespace nor a
hyphen). -/
theorem digit_clean {c : Char} (h : isDigitC c = true) :
    (!isJsWs c && c != '-') = true := by
  have h' : 48 ≤ c.toNat ∧ c.toNat ≤ 57 := by
    simpa [isDigitC] using h
  have hne : c ≠ '-' := by
    intro heq; subst heq; exact absurd h (by decide)
  have hws : isJsWs c = false := by
    by_contra hh
    have ht : isJsWs c = true := by revert hh; cases isJsWs c <;> simp
    simp only [isJsWs, Bool.or_eq_true, Bool.and_eq_true, beq_iff_eq,
      decide_eq_true_eq] at ht
    omega
  simp [hws, hne]

/-- A digit survives the auth.js cleaning. -/
theorem digit_cleanA {c : Char} (h : isDigitC c = true) : (!isJsWs c) = true := by
  have h2 := digit_clean h
  simp only [Bool.and_eq_true] at h2
  exact h2.1

theorem mem_dropPlus {x : Char} {cs : List Char} (h : x ∈ dropPlus cs) : x ∈ cs := by
  cases cs with
  | nil => simp [dropPlus] at h
  | cons c rest =>
    by_cases hc : (c == '+') = true
    · simp only [dropPlus, if_pos hc] at h
      exact List.mem_cons_of_mem _ h
    · simpa [dropPlus, hc] using h

theorem cleanP0_dropPlus (cs : List Char) :
    cleanP0 (dropPlus (cleanP0 cs)) = dropPlus (cleanP0 cs) := by
  unfold cleanP0
  apply List.filter_eq_self.mpr
  intro a ha
  exact (List.mem_filter.mp (mem_dropPlus ha)).2

theorem cleanA_dropPlus (cs : List Char) :
    cleanA (dropPlus (cleanA cs)) = dropPlus (cleanA cs) := by
  unfold cleanA
  apply List.filter_eq_self.mpr
  intro a ha
  exact (List.mem_filter.mp (mem_dropPlus ha)).2

/-- Lists of the shape `254` + valid prefix + digits survive the part_000
cleaning. -/
theorem cleanP0_canonical (c : Char) (rest : List Char) (hc : c = '7' ∨ c = '1')
    (hall : rest.all isDigitC = true) :
    cleanP0 ('2' :: '5' :: '4' :: c :: rest) = '2' :: '5' :: '4' :: c :: rest := by
  unfold cleanP0
  apply List.filter_eq_self.mpr
  intro a ha
  simp only [List.mem_cons] at ha
  rcases ha with rfl | rfl | rfl | rfl | hmem
  · decide
  · decide
  · decide
  · rcases hc with rfl | rfl <;> decide
  · exact digit_clean (List.all_eq_true.mp hall a hmem)

/-- Lists of the shape `254` + valid prefix + digits survive the auth.js
cleaning. -/
theorem cleanA_canonical (c : Char) (rest : List Char) (hc : c = '7' ∨ c = '1')
    (hall : rest.all isDigitC = true) :
    cleanA ('2' :: '5' :: '4' :: c :: rest) = '2' :: '5' :: '4' :: c :: rest := by
  unfold cleanA
  apply List.filter_eq_self.mpr
  intro a ha
  simp only [List.mem_cons] at ha
  rcases ha with rfl | rfl | rfl | rfl | hmem
  · decide
  · decide
  · decide
  · rcases hc with rfl | rfl <;> decide
  · exact digit_cleanA (List.all_eq_true.mp hall a hmem)

/-- Structure of every successful result of the part_000 normalizer: 12
characters, prefix `254`, 4th character `7` or `1`, and fixed under the
part_000 cleaning. -/
theorem normP0Core_ok_inv {cs r : List Char}
    (h : normalizeKenyanPhoneP0Core cs = .ok r) :
    r.length = 12 ∧ startsWith254 r = true ∧
      (r[3]? = some '7' ∨ r[3]? = some '1') ∧ cleanP0 r = r := by
  simp only [normalizeKenyanPhoneP0Core] at h
  split at h
  · exact absurd h (by simp)
  · split at h
    · rename_i hcond
      split at h
      · rename_i h4
        injection h with hr
        subst hr
        simp only [Bool.and_eq_true, beq_iff_eq] at hcond
        obtain ⟨hsw, hlen⟩ := hcond
        simp only [Bool.or_eq_true, beq_iff_eq] at h4
        exact ⟨hlen, hsw, h4, cleanP0_dropPlus cs⟩
      · exact absurd h (by simp)
    · split at h
      · rename_i hsh
        injection h with hr
        obtain ⟨c, rest, hp, hc, hlen, hall⟩ := shapeLocal10_spec hsh
        subst hr
        rw [hp]
        simp only [List.drop_succ_cons, List.drop_zero]
        refine ⟨by simp [hlen], by simp [startsWith254], ?_, ?_⟩
        · simpa using hc
        · exact cleanP0_canonical c rest hc hall
      · split at h
        · rename_i hsh
          injection h with hr
          obtain ⟨c, rest, hp, hc, hlen, hall⟩ := shapeBare9_spec hsh
          subst hr
          rw [hp]
          refine ⟨by simp [hlen], by simp [startsWith254], ?_, ?_⟩
          · simpa using hc
          · exact cleanP0_canonical c rest hc hall
        · exact absurd h (by simp)

/-- Structure of every successful result of the auth.js normalizer. -/
theorem normACore_ok_inv {cs r : List Char}
    (h : normalizeKenyanPhoneACore cs = .ok r) :
    ∃ c rest, r = '2' :: '5' :: '4' :: c :: rest ∧ (c = '7' ∨ c = '1') ∧
      rest.length = 8 ∧ rest.all isDigitC = true ∧ cleanA r = r := by
  simp only [normalizeKenyanPhoneACore] at h
  split at h
  · exact absurd h (by simp)
  · split at h
    · split at h
      · rename_i hsh
        injection h with hr
        obtain ⟨c, rest, hp, hc, hlen, hall⟩ := shapeBare9_spec hsh
        subst hr
        rw [hp]
        exact ⟨c, rest, rfl, hc, hlen, hall, cleanA_canonical c rest hc hall⟩
      · exact absurd h (by simp)
    · split at h
      · rename_i hsh
        injection h with hr
        obtain ⟨c, rest, hp, hc, hlen, hall⟩ := shapeLocal10_spec hsh
        subst hr
        rw [hp]
        simp only [List.drop_succ_cons, List.drop_zero]
        exact ⟨c, rest, rfl, hc, hlen, hall, cleanA_canonical c rest hc hall⟩
      · exact absurd h (by simp)

/-- Renormalizing a successful part_000 output returns it unchanged. -/
theorem normP0Core_idem {cs r : List Char}
    (h : normalizeKenyanPhoneP0Core cs = .ok r) :
    normalizeKenyanPhoneP0Core r = .ok r := by
  obtain ⟨hlen, hsw, h3, hclean⟩ := normP0Core_ok_inv h
  obtain ⟨t, ht⟩ := startsWith254_exists hsw
  have hdp : dropPlus r = r := by rw [ht]; simp [dropPlus]
  simp only [normalizeKenyanPhoneP0Core]
  rw [hclean, hdp, if_neg (by rw [ht]; simp), if_pos (by simp [hsw, hlen]),
    if_pos (by rcases h3 with h3 | h3 <;> simp [h3])]

/-- Renormalizing a successful auth.js output returns it unchanged. -/
theorem normACore_idem {cs r : List Char}
    (h : normalizeKenyanPhoneACore cs = .ok r) :
    normalizeKenyanPhoneACore r = .ok r := by
  obtain ⟨c, rest, hr, hc, hlen, hall, hclean⟩ := normACore_ok_inv h
  subst hr
  have hdp : dropPlus ('2' :: '5' :: '4' :: c :: rest) = '2' :: '5' :: '4' :: c :: rest := by
    simp [dropPlus]
  simp only [normalizeKenyanPhoneACore]
  rw [hclean, hdp, if_neg (by simp), if_pos (by simp [startsWith254])]
  rw [if_pos]
  · rfl
  · simp only [List.drop_succ_cons, List.drop_zero, shapeBare9, Bool.and_eq_true,
      Bool.or_eq_true, beq_iff_eq]
    exact ⟨⟨hc, hlen⟩, hall⟩

/-- Counterexample to C5 as stated: in the part_000 variant the
country-code-prefixed branch checks only the `254` prefix, the total length
of 12 and the 4th character — the remaining characters are not required to be
digits.  "2547abcdefgh" is accepted and returned unchanged even though it is
not a 12-digit string, so normalization accepts inputs outside the three
claimed digit shapes. -/
theorem phone_shapes_counterexample :
    normalizeKenyanPhoneP0 "2547abcdefgh" = .ok "2547abcdefgh"
    ∧ "2547abcdefgh".toList.all isDigitC = false
    ∧ normalizeKenyanPhoneA "712345678" =
        .error "Invalid Kenyan phone number. Use format: 07XXXXXXXX or 2547XXXXXXXX" := by
  refine ⟨by decide, by decide, by decide⟩

/-- C5 (amended): in the part_000 variant, after removing whitespace and
hyphens and an optional leading `+`: a 12-character string starting `254`
whose 4th character is `7` or `1` is returned unchanged (remaining characters
unvalidated); `0(7|1)\d{8}` has its leading zero replaced by `254`;
`(7|1)\d{8}` is prefixed with `254`; every other input fails; and every
success is a 12-character string starting `254` whose 4th character is `7` or
`1`.  In the auth.js variant the bare nine-digit shape is rejected. -/
theorem phone_normalization_shapes (s : String) :
    (startsWith254 (dropPlus (cleanP0 s.toList)) = true →
      (dropPlus (cleanP0 s.toList)).length = 12 →
      ((dropPlus (cleanP0 s.toList))[3]? = some '7' ∨
        (dropPlus (cleanP0 s.toList))[3]? = some '1') →
      normalizeKenyanPhoneP0 s = .ok (dropPlus (cleanP0 s.toList)).asString)
    ∧ (shapeLocal10 (dropPlus (cleanP0 s.toList)) = true →
      normalizeKenyanPhoneP0 s =
        .ok ('2' :: '5' :: '4' :: (dropPlus (cleanP0 s.toList)).drop 1).asString)
    ∧ (shapeBare9 (dropPlus (cleanP0 s.toList)) = true →
      normalizeKenyanPhoneP0 s =
        .ok ('2' :: '5' :: '4' :: dropPlus (cleanP0 s.toList)).asString)
    ∧ (¬(startsWith254 (dropPlus (cleanP0 s.toList)) = true ∧
          (dropPlus (cleanP0 s.toList)).length = 12) →
      shapeLocal10 (dropPlus (cleanP0 s.toList)) = false →
      shapeBare9 (dropPlus (cleanP0 s.toList)) = false →
      ∃ e, normalizeKenyanPhoneP0 s = .error e)
    ∧ (∀ r, normalizeKenyanPhoneP0 s = .ok r →
        r.toList.length = 12 ∧ startsWith254 r.toList = true ∧
          (r.toList[3]? = some '7' ∨ r.toList[3]? = some '1'))
    ∧ (shapeBare9 (dropPlus (cleanA s.toList)) = true →
      ∃ e, normalizeKenyanPhoneA s = .error e) := by
  refine ⟨?_, ?_, ?_, ?_, ?_, ?_⟩
  · intro hsw hlen h4
    simp only [String.toList] at hsw hlen h4 ⊢
    obtain ⟨t, ht⟩ := startsWith254_exists hsw
    unfold normalizeKenyanPhoneP0
    simp only [String.toList, normalizeKenyanPhoneP0Core]
    rw [if_neg ?hne, if_pos (by simp [hsw, hlen]),
      if_pos (by rcases h4 with h4 | h4 <;> simp [h4])]
    · rfl
    case hne =>
      intro hemp
      rw [List.isEmpty_iff] at hemp
      have h0 : dropPlus (cleanP0 s.data) = [] := by rw [hemp]; rfl
      rw [ht] at h0
      exact absurd h0 (by simp)
  · intro hsh
    simp only [String.toList] at hsh ⊢
    obtain ⟨c, rest, hp, hc, hlen, hall⟩ := shapeLocal10_spec hsh
    have hsw : startsWith254 (dropPlus (cleanP0 s.data)) = false := by
      rw [hp]
      cases rest with
      | nil => simp [startsWith254]
      | cons d t2 => simp [startsWith254]
    unfold normalizeKenyanPhoneP0
    simp only [String.toList, normalizeKenyanPhoneP0Core]
    rw [if_neg ?hne2, if_neg (by simp [hsw]), if_pos hsh]
    · rfl
    case hne2 =>
      intro hemp
      rw [List.isEmpty_iff] at hemp
      have h0 : dropPlus (cleanP0 s.data) = [] := by rw [hemp]; rfl
      rw [hp] at h0
      exact absurd h0 (by simp)
  · intro hsh
    simp only [String.toList] at hsh ⊢
    obtain ⟨c, rest, hp, hc, hlen, hall⟩ := shapeBare9_spec hsh
    have hsw : startsWith254 (dropPlus (cleanP0 s.data)) = false := by
      rw [hp]
      cases rest with
      | nil => simp at hlen
      | cons d t2 =>
        cases t2 with
        | nil => simp at hlen
        | cons e t3 => rcases hc with rfl | rfl <;> simp [startsWith254]
    have hs10 : shapeLocal10 (dropPlus (cleanP0 s.data)) = false := by
      rw [hp]
      cases rest with
      | nil => simp at hlen
      | cons d t2 => rcases hc with rfl | rfl <;> simp [shapeLocal10]
    unfold normalizeKenyanPhoneP0
    simp only [String.toList, normalizeKenyanPhoneP0Core]
    rw [if_neg ?hne3, if_neg (by simp [hsw]), if_neg (by simp [hs10]), if_pos hsh]
    · rfl
    case hne3 =>
      intro hemp
      rw [List.isEmpty_iff] at hemp
      have h0 : dropPlus (cleanP0 s.data) = [] := by rw [hemp]; rfl
      rw [hp] at h0
      exact absurd h0 (by simp)
  · intro hnota hs10 hs9
    simp only [String.toList] at hnota hs10 hs9 ⊢
    unfold normalizeKenyanPhoneP0
    simp only [String.toList, normalizeKenyanPhoneP0Core]
    by_cases hemp : (cleanP0 s.data).isEmpty = true
    · rw [if_pos hemp]
      exact ⟨"Phone number is required.", rfl⟩
    · rw [if_neg hemp]
      by_cases hab : (startsWith254 (dropPlus (cleanP0 s.data)) &&
          (dropPlus (cleanP0 s.data)).length == 12) = true
      · rw [if_pos hab]
        simp only [Bool.and_eq_true, beq_iff_eq] at hab
        exact absurd hab hnota
      · rw [if_neg hab, if_neg (by simp [hs10]), if_neg (by simp [hs9])]
        exact ⟨"Invalid phone number format.", rfl⟩
  · intro r hr
    unfold normalizeKenyanPhoneP0 at hr
    cases hcore : normalizeKenyanPhoneP0Core s.toList with
    | error e => rw [hcore] at hr; exact absurd hr (by simp [Except.map])
    | ok rl =>
      rw [hcore] at hr
      simp only [Except.map] at hr
      injection hr with hr
      obtain ⟨hlen, hsw, h4, _⟩ := normP0Core_ok_inv hcore
      have hrl : r.toList = rl := by rw [← hr, List.toList_asString]
      rw [hrl]
      exact ⟨hlen, hsw, h4⟩
  · intro hsh
    simp only [String.toList] at hsh ⊢
    obtain ⟨c, rest, hp, hc, hlen, hall⟩ := shapeBare9_spec hsh
    have hsw : startsWith254 (dropPlus (cleanA s.data)) = false := by
      rw [hp]
      cases rest with
      | nil => simp at hlen
      | cons d t2 =>
        cases t2 with
        | nil => simp at hlen
        | cons e t3 => rcases hc with rfl | rfl <;> simp [startsWith254]
    have hs10 : shapeLocal10 (dropPlus (cleanA s.data)) = false := by
      rw [hp]
      cases rest with
      | nil => simp at hlen
      | cons d t2 => rcases hc with rfl | rfl <;> simp [shapeLocal10]
    unfold normalizeKenyanPhoneA
    simp only [String.toList, normalizeKenyanPhoneACore]
    rw [if_neg ?hne4, if_neg (by simp [hsw]), if_neg (by simp [hs10])]
    · exact ⟨_, rfl⟩
    case hne4 =>
      intro hemp
      rw [List.isEmpty_iff] at hemp
      have h0 : dropPlus (cleanA s.data) = [] := by rw [hemp]; rfl
      rw [hp] at h0
      exact absurd h0 (by simp)

/-- Witness for `phone_normalization_shapes` at the concrete inputs
"0712345678" (local shape), "712345678" (bare shape) and "5678" (rejected). -/
theorem phone_normalization_shapes_witness :
    normalizeKenyanPhoneP0 "0712345678" = .ok "254712345678"
    ∧ normalizeKenyanPhoneP0 "712345678" = .ok "254712345678"
    ∧ (∃ e, normalizeKenyanPhoneP0 "5678" = .error e) :=
  ⟨(phone_normalization_shapes "0712345678").2.1 (by decide),
   (phone_normalization_shapes "712345678").2.2.1 (by decide),
   (phone_normalization_shapes "5678").2.2.2.1 (by decide) (by decide) (by decide)⟩

/-- C9: normalization is idempotent on its successful outputs, in both
variants: whenever `normalize(y)` succeeds with canonical result `x`,
`normalize(x)` succeeds and returns `x` unchanged, hence
`normalize(normalize(y)) = normalize(y)` on successes. -/
theorem phone_normalization_idempotent :
    (∀ s r, normalizeKenyanPhoneP0 s = .ok r → normalizeKenyanPhoneP0 r = .ok r)
    ∧ (∀ s r, normalizeKenyanPhoneA s = .ok r → normalizeKenyanPhoneA r = .ok r) := by
  constructor
  · intro s r hr
    unfold normalizeKenyanPhoneP0 at hr ⊢
    cases hcore : normalizeKenyanPhoneP0Core s.toList with
    | error e => rw [hcore] at hr; exact absurd hr (by simp [Except.map])
    | ok rl =>
      rw [hcore] at hr
      simp only [Except.map] at hr
      injection hr with hr
      have hrl : r.toList = rl := by rw [← hr, List.toList_asString]
      rw [hrl, normP0Core_idem hcore]
      simp only [Except.map]
      rw [hr]
  · intro s r hr
    unfold normalizeKenyanPhoneA at hr ⊢
    cases hcore : normalizeKenyanPhoneACore s.toList with
    | error e => rw [hcore] at hr; exact absurd hr (by simp [Except.map])
    | ok rl =>
      rw [hcore] at hr
      simp only [Except.map] at hr
      injection hr with hr
      have hrl : r.toList = rl := by rw [← hr, List.toList_asString]
      rw [hrl, normACore_idem hcore]
      simp only [Except.map]
      rw [hr]

/-- Witness for `phone_normalization_idempotent`: the canonical output
"254712345678" of normalizing "0712345678" renormalizes to itself in both
variants. -/
theorem phone_normalization_idempotent_witness :
    normalizeKenyanPhoneP0 "254712345678" = .ok "254712345678"
    ∧ normalizeKenyanPhoneA "254712345678" = .ok "254712345678" :=
  ⟨phone_normalization_idempotent.1 "0712345678" "254712345678" (by decide),
   phone_normalization_idempotent.2 "0712345678" "254712345678" (by decide)⟩

/-! ### Token expiry (C2) -/

theorem parseJWTP0_segments {token : String} (h : (splitOnDot token.toList).length ≠ 3) :
    parseJWTP0 token = none := by
  unfold parseJWTP0
  by_cases he : token = ""
  · rw [if_pos he]
  · rw [if_neg he, if_pos (by simpa [bne_iff_ne] using h)]

theorem parseJWTA_segments {token : String} (h : (splitOnDot token.toList).length ≠ 3) :
    parseJWTA token = none := by
  unfold parseJWTA
  by_cases he : token = ""
  · rw [if_pos he]
  · rw [if_neg he, if_pos (by simpa [bne_iff_ne] using h)]

/-- Counterexample to C2 as stated: the token "x.e30.y" has three segments
and a second segment decoding to the valid JSON object `{}`, which lacks an
expiry claim; the claim requires `isExpired` to return true (fail-closed),
but the auth.js variant returns false (its code comments "No expiry claim"
and treats the token as not expired). -/
theorem token_expiry_counterexample :
    parseJWTA "x.e30.y" = some (Json.obj [])
    ∧ (Json.obj []).truthy = true
    ∧ (Json.obj []).get "exp" = none
    ∧ isTokenExpiredA "x.e30.y" 1700000000000 = false :=
  ⟨rfl, rfl, rfl, by decide⟩

/-- C2 (amended): both variants are total boolean functions (they never
throw).  In the part_000 variant the check is fail-closed exactly as
claimed: wrong segment count, undecodable or unparseable payload, or a
falsy/missing expiry claim all yield true, and a numeric expiry claim
compares `Math.floor(now/1000) >= exp - 30`.  In the auth.js variant an
unparseable token yields true, but a parseable truthy payload WITHOUT an
expiry claim yields false (not expired), and a numeric expiry claim
compares `now >= exp*1000 - 30000` (milliseconds). -/
theorem token_expiry_fail_closed :
    (∀ (token : String) (nowMs : ℤ),
        isTokenExpiredP0 token nowMs = true ∨ isTokenExpiredP0 token nowMs = false)
    ∧ (∀ (token : String) (nowMs : ℤ), (splitOnDot token.toList).length ≠ 3 →
        isTokenExpiredP0 token nowMs = true)
    ∧ (∀ (token : String) (nowMs : ℤ), parseJWTP0 token = none →
        isTokenExpiredP0 token nowMs = true)
    ∧ (∀ (token : String) (nowMs : ℤ) (j : Json), parseJWTP0 token = some j →
        (j.truthy = false ∨ Json.truthyOpt (j.get "exp") = false) →
        isTokenExpiredP0 token nowMs = true)
    ∧ (∀ (token : String) (nowMs : ℤ) (j : Json) (q : ℚ),
        parseJWTP0 token = some j → j.truthy = true →
        j.get "exp" = some (.num q) → q ≠ 0 →
        isTokenExpiredP0 token nowMs = decide (((nowMs.fdiv 1000 : ℤ) : ℚ) ≥ q - 30))
    ∧ (∀ (token : String) (nowMs : ℤ), (splitOnDot token.toList).length ≠ 3 →
        isTokenExpiredA token nowMs = true)
    ∧ (∀ (token : String) (nowMs : ℤ), parseJWTA token = none →
        isTokenExpiredA token nowMs = true)
    ∧ (∀ (token : String) (nowMs : ℤ) (j : Json), parseJWTA token = some j →
        j.truthy = true → Json.truthyOpt (j.get "exp") = false →
        isTokenExpiredA token nowMs = false)
    ∧ (∀ (token : String) (nowMs : ℤ) (j : Json) (q : ℚ),
        parseJWTA token = some j → j.truthy = true →
        j.get "exp" = some (.num q) → q ≠ 0 →
        isTokenExpiredA token nowMs = decide ((nowMs : ℚ) ≥ q * 1000 - 30000)) := by
  refine ⟨?_, ?_, ?_, ?_, ?_, ?_, ?_, ?_, ?_⟩
  · intro token nowMs
    cases isTokenExpiredP0 token nowMs
    · right; rfl
    · left; rfl
  · intro token nowMs h
    unfold isTokenExpiredP0
    rw [parseJWTP0_segments h]
  · intro token nowMs h
    unfold isTokenExpiredP0
    rw [h]
  · intro token nowMs j hp hcase
    unfold isTokenExpiredP0
    rw [hp]
    rcases hcase with hf | hf
    · simp [hf]
    · simp [hf]
  · intro token nowMs j q hp ht hexp hq
    unfold isTokenExpiredP0
    rw [hp]
    show (if (!j.truthy) = true then true
        else if (!Json.truthyOpt (j.get "exp")) = true then true
        else JsNum.ge (.fin ((nowMs.fdiv 1000 : ℤ) : ℚ))
          (JsNum.sub (jsToNumber (j.get "exp")) (.fin 30)))
      = decide (((nowMs.fdiv 1000 : ℤ) : ℚ) ≥ q - 30)
    rw [ht, hexp]
    simp [Json.truthyOpt, Json.truthy, hq, jsToNumber, JsNum.sub, JsNum.ge]
  · intro token nowMs h
    unfold isTokenExpiredA
    rw [parseJWTA_segments h]
  · intro token nowMs h
    unfold isTokenExpiredA
    rw [h]
  · intro token nowMs j hp ht hexp
    unfold isTokenExpiredA
    rw [hp]
    show (if (!j.truthy) = true then true
        else if (!Json.truthyOpt (j.get "exp")) = true then false
        else JsNum.ge (.fin (nowMs : ℚ))
          (JsNum.sub (JsNum.mul (jsToNumber (j.get "exp")) (.fin 1000)) (.fin 30000)))
      = false
    rw [ht, hexp]
    simp
  · intro token nowMs j q hp ht hexp hq
    unfold isTokenExpiredA
    rw [hp]
    show (if (!j.truthy) = true then true
        else if (!Json.truthyOpt (j.get "exp")) = true then false
        else JsNum.ge (.fin (nowMs : ℚ))
          (JsNum.sub (JsNum.mul (jsToNumber (j.get "exp")) (.fin 1000)) (.fin 30000)))
      = decide ((nowMs : ℚ) ≥ q * 1000 - 30000)
    rw [ht, hexp]
    simp [Json.truthyOpt, Json.truthy, hq, jsToNumber, JsNum.sub, JsNum.mul, JsNum.ge]

/-- Witness for `token_expiry_fail_closed` at a concrete well-formed token
whose payload is `{"exp":1000}` (part_000 variant, seconds clock) and at the
malformed token "bad" (auth.js variant). -/
theorem token_expiry_fail_closed_witness :
    isTokenExpiredP0 "h.eyJleHAiOjEwMDB9.s" 969999 =
      decide ((((969999 : ℤ).fdiv 1000 : ℤ) : ℚ) ≥ 1000 - 30)
    ∧ isTokenExpiredA "bad" 0 = true :=
  ⟨token_expiry_fail_closed.2.2.2.2.1 "h.eyJleHAiOjEwMDB9.s" 969999
      (Json.obj [("exp", Json.num 1000)]) 1000 rfl rfl rfl (by norm_num),
   token_expiry_fail_closed.2.2.2.2.2.2.1 "bad" 0 rfl⟩

/-! ### API client lemmas -/

/-- If a part_000 `api` call reached the network, the auth gate passed and
the call behaves as `apiP0Net`. -/
theorem apiP0_net_of_network {st : Option Json} {auth : Bool} {nowMs : ℤ}
    {resp : HttpResp} (h : (apiP0 st auth nowMs resp).network = true) :
    apiP0 st auth nowMs resp = apiP0Net st resp := by
  unfold apiP0 at h ⊢
  by_cases h1 : (auth && !(getToken st).truthy) = true
  · rw [if_pos h1] at h
    exact absurd h (by simp)
  · rw [if_neg h1] at h ⊢
    by_cases h2 : (auth && isTokenExpiredP0 (jsToString (getToken st)) nowMs) = true
    · rw [if_pos h2] at h
      exact absurd h (by simp)
    · rw [if_neg h2]

/-- If an auth.js `api` call reached the network, it behaves as `apiANet`. -/
theorem apiA_net_of_network {st : Option Json} {auth : Bool} {nowMs : ℤ}
    {resp : HttpResp} (h : (apiA st auth nowMs resp).network = true) :
    apiA st auth nowMs resp = apiANet st resp := by
  unfold apiA at h ⊢
  by_cases h1 : (auth && (getToken st).truthy &&
      isTokenExpiredA (jsToString (getToken st)) nowMs) = true
  · rw [if_pos h1] at h
    exact absurd h (by simp)
  · rw [if_neg h1] at h ⊢

/-- Models `apiP0Net` clears the store on 401/403 when the body parses (or is
empty). -/
theorem apiP0Net_store_unauthorized {st : Option Json} {resp : HttpResp} {d : Json}
    (hparse : parseBodyP0 resp.body = .ok d)
    (hst : resp.status = 401 ∨ resp.status = 403) :
    (apiP0Net st resp).store = none := by
  have hok : respOk resp = false := by
    rcases hst with h | h <;> simp [respOk, h]
  simp only [apiP0Net, hparse, hok, Bool.false_eq_true, if_false]
  rcases hst with h | h <;> simp [h]

/-- Models `apiANet` clears the store on 401/403 unconditionally. -/
theorem apiANet_store_unauthorized {st : Option Json} {resp : HttpResp}
    (hst : resp.status = 401 ∨ resp.status = 403) :
    (apiANet st resp).store = none := by
  have hok : respOk resp = false := by
    rcases hst with h | h <;> simp [respOk, h]
  rcases hst with h | h <;>
    simp only [apiANet, hok, Bool.false_eq_true, if_false, h]

/-- The part_000 `api` either leaves the store unchanged or clears it
(it never writes a new token). -/
theorem apiP0_store_cases (st : Option Json) (auth : Bool) (nowMs : ℤ)
    (resp : HttpResp) :
    (apiP0 st auth nowMs resp).store = st ∨ (apiP0 st auth nowMs resp).store = none := by
  unfold apiP0 apiP0Net
  split
  · left; rfl
  · split
    · right; rfl
    · split
      · left; rfl
      · split
        · left; rfl
        · dsimp only
          split
          · right; rfl
          · left; rfl

/-- The auth.js `api` either leaves the store unchanged or clears it. -/
theorem apiA_store_cases (st : Option Json) (auth : Bool) (nowMs : ℤ)
    (resp : HttpResp) :
    (apiA st auth nowMs resp).store = st ∨ (apiA st auth nowMs resp).store = none := by
  unfold apiA apiANet
  split
  · right; rfl
  · dsimp only
    split <;> split <;>
      first
        | (split <;> first | (left; rfl) | (right; rfl))
        | (left; rfl)
        | (right; rfl)

/-! ### C3: fail-fast authentication gate -/

/-- Counterexample to C3 as stated: in the auth.js variant an authenticated
request with NO stored token does not fail with "not authenticated" — the
request is sent anyway (network reached) and succeeds. -/
theorem auth_gate_counterexample :
    (getToken none).truthy = false
    ∧ (apiA none true 0 ⟨200, ""⟩).network = true
    ∧ (apiA none true 0 ⟨200, ""⟩).result = .ok Json.null :=
  ⟨rfl, rfl, rfl⟩

/-- C3 (amended): in the part_000 variant the gate is exactly as claimed:
absent (falsy) token fails with "Not authenticated." leaving the store
unchanged, expired token fails with "Session expired. Please login again."
clearing the store, both without a network call, and the two messages are
distinct.  In the auth.js variant only the expired-token half holds; an
absent token sends the request without credentials (see the
counterexample). -/
theorem auth_gate_fail_fast :
    (∀ (st : Option Json) (nowMs : ℤ) (resp : HttpResp),
        (getToken st).truthy = false →
        apiP0 st true nowMs resp = ⟨.error (.error "Not authenticated."), st, false⟩)
    ∧ (∀ (st : Option Json) (nowMs : ℤ) (resp : HttpResp),
        (getToken st).truthy = true →
        isTokenExpiredP0 (jsToString (getToken st)) nowMs = true →
        apiP0 st true nowMs resp =
          ⟨.error (.error "Session expired. Please login again."), none, false⟩)
    ∧ "Not authenticated." ≠ "Session expired. Please login again."
    ∧ (∀ (st : Option Json) (nowMs : ℤ) (resp : HttpResp),
        (getToken st).truthy = true →
        isTokenExpiredA (jsToString (getToken st)) nowMs = true →
        apiA st true nowMs resp =
          ⟨.error (.error "Session expired. Please login again."), none, false⟩) := by
  refine ⟨?_, ?_, by decide, ?_⟩
  · intro st nowMs resp h
    unfold apiP0
    rw [if_pos (by simp [h])]
  · intro st nowMs resp h hexp
    unfold apiP0
    rw [if_neg (by simp [h]), if_pos (by simp [hexp])]
  · intro st nowMs resp h hexp
    unfold apiA
    rw [if_pos (by simp [h, hexp])]

/-- Witness for `auth_gate_fail_fast`: an empty store fails fast in the
part_000 variant, and the unparseable stored token "x.y" (expired by the
fail-closed check) fails fast and is cleared in both variants. -/
theorem auth_gate_fail_fast_witness :
    apiP0 none true 0 ⟨200, ""⟩ = ⟨.error (.error "Not authenticated."), none, false⟩
    ∧ apiP0 (some (.str "x.y")) true 0 ⟨200, ""⟩ =
        ⟨.error (.error "Session expired. Please login again."), none, false⟩
    ∧ apiA (some (.str "x.y")) true 0 ⟨200, ""⟩ =
        ⟨.error (.error "Session expired. Please login again."), none, false⟩ :=
  ⟨auth_gate_fail_fast.1 none 0 ⟨200, ""⟩ rfl,
   auth_gate_fail_fast.2.1 (some (.str "x.y")) 0 ⟨200, ""⟩ rfl (by decide),
   auth_gate_fail_fast.2.2.2 (some (.str "x.y")) 0 ⟨200, ""⟩ rfl (by decide)⟩

/-! ### C4: 401/403 clears the stored token -/

/-- Counterexample to C4 as stated: the binary/multipart upload path
(`apiFormData`) does not clear the stored token on a 401 response. -/
theorem upload_unauthorized_counterexample :
    (apiFormData (some (.str "t")) true (.load ⟨401, "\x7b\"error\":\"x\"\x7d"⟩)).store
      = some (.str "t")
    ∧ some (Json.str "t") ≠ (none : Option Json) :=
  ⟨rfl, Option.some_ne_none _⟩

/-- C4 (amended): on the part_000 JSON path a 401/403 response whose body is
empty or parseable JSON clears the stored token, idempotently (for any prior
store, including none); on the auth.js JSON path a 401/403 clears it for any
body; the formData upload path never writes the store at all. -/
theorem unauthorized_clears_token :
    (∀ (st : Option Json) (auth : Bool) (nowMs : ℤ) (resp : HttpResp) (d : Json),
        (resp.status = 401 ∨ resp.status = 403) →
        parseBodyP0 resp.body = .ok d →
        (apiP0 st auth nowMs resp).network = true →
        (apiP0 st auth nowMs resp).store = none)
    ∧ (∀ (st : Option Json) (auth : Bool) (nowMs : ℤ) (resp : HttpResp),
        (resp.status = 401 ∨ resp.status = 403) →
        (apiA st auth nowMs resp).network = true →
        (apiA st auth nowMs resp).store = none)
    ∧ (∀ (st : Option Json) (auth : Bool) (resp : HttpResp),
        (apiFormData st auth (.load resp)).store = st) := by
  refine ⟨?_, ?_, ?_⟩
  · intro st auth nowMs resp d hst hparse hnet
    rw [apiP0_net_of_network hnet]
    exact apiP0Net_store_unauthorized hparse hst
  · intro st auth nowMs resp hst hnet
    rw [apiA_net_of_network hnet]
    exact apiANet_store_unauthorized hst
  · intro st auth resp
    unfold apiFormData
    dsimp only
    split <;> rfl

/-- Witness for `unauthorized_clears_token`: a 401 with empty body clears a
stored token on the part_000 path; a 403 clears it on the auth.js path even
when no token was stored; a 401 upload leaves the store unchanged. -/
theorem unauthorized_clears_token_witness :
    (apiP0 (some (.str "t")) false 0 ⟨401, ""⟩).store = none
    ∧ (apiA none false 0 ⟨403, ""⟩).store = none
    ∧ (apiFormData (some (.str "t")) false (.load ⟨401, ""⟩)).store = some (.str "t") :=
  ⟨unauthorized_clears_token.1 (some (.str "t")) false 0 ⟨401, ""⟩ Json.null
      (Or.inl rfl) rfl rfl,
   unauthorized_clears_token.2.1 none false 0 ⟨403, ""⟩ (Or.inr rfl) rfl,
   unauthorized_clears_token.2.2 (some (.str "t")) false ⟨401, ""⟩⟩

/-! ### C7: normalized error message extraction -/

/-- Helper: `v || fallback` falls through on a falsy or absent value. -/
theorem jsOrOpt_of_falsy {v : Option Json} {fb : Json}
    (h : Json.truthyOpt v = false) : jsOrOpt v fb = fb := by
  cases v with
  | none => rfl
  | some x =>
    have hx : x.truthy = false := by simpa [Json.truthyOpt] using h
    simp [jsOrOpt, hx]

/-- Counterexample to C7 as stated: in the part_000 variant a 500 response
with body `{"message":"boom"}` raises "Request failed" — the `message` field
is never consulted and the generic fallback does not include the HTTP status
code. -/
theorem error_priority_counterexample :
    (apiP0 none false 0 ⟨500, "\x7b\"message\":\"boom\"\x7d"⟩).result
      = .error (.error "Request failed")
    ∧ "Request failed" ≠ "boom"
    ∧ "Request failed" ≠ "Request failed (500)" :=
  ⟨rfl, by decide, by decide⟩

/-- C7 (amended): in the part_000 variant a non-success response raises a
single error whose message is the `error` field if truthy, else the `detail`
field if truthy, else the constant "Request failed" (no `message` field, no
status code in the fallback).  In the auth.js variant the priority chain
exists but is overridden per status; e.g. every 403 raises "Access denied.
Please login again." regardless of the body. -/
theorem error_extraction_priority :
    (∀ (st : Option Json) (auth : Bool) (nowMs : ℤ) (resp : HttpResp) (d e : Json),
        (apiP0 st auth nowMs resp).network = true →
        parseBodyP0 resp.body = .ok d → respOk resp = false →
        d.get "error" = some e → e.truthy = true →
        (apiP0 st auth nowMs resp).result = .error (.error (jsToString e)))
    ∧ (∀ (st : Option Json) (auth : Bool) (nowMs : ℤ) (resp : HttpResp) (d dt : Json),
        (apiP0 st auth nowMs resp).network = true →
        parseBodyP0 resp.body = .ok d → respOk resp = false →
        Json.truthyOpt (d.get "error") = false →
        d.get "detail" = some dt → dt.truthy = true →
        (apiP0 st auth nowMs resp).result = .error (.error (jsToString dt)))
    ∧ (∀ (st : Option Json) (auth : Bool) (nowMs : ℤ) (resp : HttpResp) (d : Json),
        (apiP0 st auth nowMs resp).network = true →
        parseBodyP0 resp.body = .ok d → respOk resp = false →
        Json.truthyOpt (d.get "error") = false →
        Json.truthyOpt (d.get "detail") = false →
        (apiP0 st auth nowMs resp).result = .error (.error "Request failed"))
    ∧ (∀ (st : Option Json) (auth : Bool) (nowMs : ℤ) (resp : HttpResp),
        resp.status = 403 →
        (apiA st auth nowMs resp).network = true →
        (apiA st auth nowMs resp).result =
          .error (.error "Access denied. Please login again.")) := by
  refine ⟨?_, ?_, ?_, ?_⟩
  · intro st auth nowMs resp d e hnet hparse hok hget htr
    rw [apiP0_net_of_network hnet]
    simp only [apiP0Net, hparse, hok, Bool.false_eq_true, if_false]
    simp [jsOrOpt, hget, htr]
  · intro st auth nowMs resp d dt hnet hparse hok herr hget htr
    rw [apiP0_net_of_network hnet]
    simp only [apiP0Net, hparse, hok, Bool.false_eq_true, if_false]
    rw [jsOrOpt_of_falsy herr]
    simp [jsOrOpt, hget, htr]
  · intro st auth nowMs resp d hnet hparse hok herr hdet
    rw [apiP0_net_of_network hnet]
    simp only [apiP0Net, hparse, hok, Bool.false_eq_true, if_false]
    rw [jsOrOpt_of_falsy herr, jsOrOpt_of_falsy hdet]
    rfl
  · intro st auth nowMs resp h403 hnet
    rw [apiA_net_of_network hnet]
    have hok : respOk resp = false := by simp [respOk, h403]
    unfold apiANet
    dsimp only
    rw [hok]
    simp only [Bool.false_eq_true, if_false, h403]

/-- Witness for `error_extraction_priority` at concrete 418 responses
exercising each priority level, and a 403 with a body `error` field on the
auth.js path. -/
theorem error_extraction_priority_witness :
    (apiP0 none false 0 ⟨418, "\x7b\"error\":\"E\",\"detail\":\"D\"\x7d"⟩).result
      = .error (.error "E")
    ∧ (apiP0 none false 0 ⟨418, "\x7b\"detail\":\"D\"\x7d"⟩).result = .error (.error "D")
    ∧ (apiP0 none false 0 ⟨418, "\x7b\x7d"⟩).result = .error (.error "Request failed")
    ∧ (apiA none false 0 ⟨403, "\x7b\"error\":\"E\"\x7d"⟩).result =
        .error (.error "Access denied. Please login again.") :=
  ⟨error_extraction_priority.1 none false 0 ⟨418, "\x7b\"error\":\"E\",\"detail\":\"D\"\x7d"⟩
      (Json.obj [("error", Json.str "E"), ("detail", Json.str "D")]) (Json.str "E")
      rfl rfl rfl rfl rfl,
   error_extraction_priority.2.1 none false 0 ⟨418, "\x7b\"detail\":\"D\"\x7d"⟩
      (Json.obj [("detail", Json.str "D")]) (Json.str "D") rfl rfl rfl rfl rfl rfl,
   error_extraction_priority.2.2.1 none false 0 ⟨418, "\x7b\x7d"⟩ (Json.obj [])
      rfl rfl rfl rfl rfl,
   error_extraction_priority.2.2.2 none false 0 ⟨403, "\x7b\"error\":\"E\"\x7d"⟩ rfl rfl⟩

/-! ### C8: payment adapter outcomes -/

/-- C8: after a valid init (script loaded, truthy key, finite positive
amount, no open failure): a completion callback whose payload carries a
truthy reference resolves with exactly that reference; a callback whose
payload is falsy or lacks a truthy reference rejects with the
missing-reference error; the user closing the widget rejects with the
window-closed error; and the two rejection reasons are distinct. -/
theorem payment_outcomes :
    (∀ (p : PayParams) (q : ℚ), p.key.truthy = true →
        jsToNumber (some p.amount) = .fin q → 0 < q →
        ∀ ref : Json, ref.truthy = true →
          payServiceFeeInline true p false
            (.callback (some (.obj [("reference", ref)]))) = .ok ref)
    ∧ (∀ (p : PayParams) (q : ℚ), p.key.truthy = true →
        jsToNumber (some p.amount) = .fin q → 0 < q →
        ∀ r : Option Json,
          (Json.truthyOpt r = false ∨
            Json.truthyOpt (r.bind (fun v => v.get "reference")) = false) →
          payServiceFeeInline true p false (.callback r) =
            .error "Payment callback missing reference.")
    ∧ (∀ (p : PayParams) (q : ℚ), p.key.truthy = true →
        jsToNumber (some p.amount) = .fin q → 0 < q →
        payServiceFeeInline true p false .close = .error "Payment window closed.")
    ∧ "Payment window closed." ≠ "Payment callback missing reference." := by
  refine ⟨?_, ?_, ?_, by decide⟩
  · intro p q hkey hamt hpos ref href
    unfold payServiceFeeInline
    rw [if_neg (by simp), if_neg (by simp [hkey]), hamt]
    show (if q ≤ 0 then _ else _) = _
    rw [if_neg (by simpa using hpos), if_neg (by simp)]
    have hget : (Json.obj [("reference", ref)]).get "reference" = some ref := rfl
    have hobj : (Json.obj [("reference", ref)]).truthy = true := rfl
    simp [Json.truthyOpt, hget, href, hobj]
  · intro p q hkey hamt hpos r hmiss
    unfold payServiceFeeInline
    rw [if_neg (by simp), if_neg (by simp [hkey]), hamt]
    show (if q ≤ 0 then _ else _) = _
    rw [if_neg (by simpa using hpos), if_neg (by simp)]
    rcases hmiss with h | h <;> simp [h]
  · intro p q hkey hamt hpos
    unfold payServiceFeeInline
    rw [if_neg (by simp), if_neg (by simp [hkey]), hamt]
    show (if q ≤ 0 then _ else _) = _
    rw [if_neg (by simpa using hpos), if_neg (by simp)]

/-- Witness for `payment_outcomes` at a concrete valid init: callback with
`{reference: "R1"}` resolves with "R1"; an empty callback payload and a
close reject with the two distinct errors. -/
theorem payment_outcomes_witness :
    payServiceFeeInline true ⟨.str "pk", .str "e@x", .num 100, .str "REF", .null⟩ false
        (.callback (some (.obj [("reference", .str "R1")]))) = .ok (.str "R1")
    ∧ payServiceFeeInline true ⟨.str "pk", .str "e@x", .num 100, .str "REF", .null⟩ false
        (.callback (some (.obj []))) = .error "Payment callback missing reference."
    ∧ payServiceFeeInline true ⟨.str "pk", .str "e@x", .num 100, .str "REF", .null⟩ false
        .close = .error "Payment window closed." :=
  ⟨payment_outcomes.1 ⟨.str "pk", .str "e@x", .num 100, .str "REF", .null⟩ 100
      rfl rfl (by norm_num) (.str "R1") rfl,
   payment_outcomes.2.1 ⟨.str "pk", .str "e@x", .num 100, .str "REF", .null⟩ 100
      rfl rfl (by norm_num) (some (.obj [])) (Or.inr rfl),
   payment_outcomes.2.2.1 ⟨.str "pk", .str "e@x", .num 100, .str "REF", .null⟩ 100
      rfl rfl (by norm_num)⟩

/-! ### C10: login writes the token only on success -/

/-- Case analysis of `loginP0`: a local validation failure leaves the store
untouched without a network call; an api failure or a response without a
truthy `access` field propagates the api's store effect; success stores
exactly the `access` field. -/
theorem loginP0_spec (ph pw : String) (st : Option Json) (nowMs : ℤ)
    (resp : HttpResp) :
    (∃ e, loginP0 ph pw st nowMs resp = (.error e, st, false))
    ∨ (∃ e, loginP0 ph pw st nowMs resp =
        (.error e, (apiP0 st false nowMs resp).store, (apiP0 st false nowMs resp).network))
    ∨ (∃ data a, data.get "access" = some a ∧ a.truthy = true ∧
        (apiP0 st false nowMs resp).result = .ok data ∧
        loginP0 ph pw st nowMs resp =
          (.ok data, setToken (apiP0 st false nowMs resp).store a,
            (apiP0 st false nowMs resp).network)) := by
  unfold loginP0
  split
  · exact .inl ⟨_, rfl⟩
  · split
    · exact .inl ⟨_, rfl⟩
    · dsimp only
      split
      · rename_i heq
        exact .inr (.inl ⟨_, rfl⟩)
      · rename_i data heq
        split
        · rename_i a hget
          split
          · rename_i htr
            exact .inr (.inr ⟨data, a, hget, htr, heq, rfl⟩)
          · exact .inr (.inl ⟨_, rfl⟩)
        · exact .inr (.inl ⟨_, rfl⟩)

/-- Case analysis of `loginA` (same shape as `loginP0_spec`). -/
theorem loginA_spec (ph pw : String) (st : Option Json) (nowMs : ℤ)
    (resp : HttpResp) :
    (∃ e, loginA ph pw st nowMs resp = (.error e, st, false))
    ∨ (∃ e, loginA ph pw st nowMs resp =
        (.error e, (apiA st false nowMs resp).store, (apiA st false nowMs resp).network))
    ∨ (∃ data a, data.get "access" = some a ∧ a.truthy = true ∧
        (apiA st false nowMs resp).result = .ok data ∧
        loginA ph pw st nowMs resp =
          (.ok data, setToken (apiA st false nowMs resp).store a,
            (apiA st false nowMs resp).network)) := by
  unfold loginA
  split
  · exact .inl ⟨_, rfl⟩
  · split
    · exact .inl ⟨_, rfl⟩
    · split
      · exact .inl ⟨_, rfl⟩
      · dsimp only
        split
        · rename_i heq
          exact .inr (.inl ⟨_, rfl⟩)
        · rename_i data heq
          split
          · exact .inr (.inl ⟨_, rfl⟩)
          · split
            · rename_i a hget
              split
              · rename_i htr
                exact .inr (.inr ⟨data, a, hget, htr, heq, rfl⟩)
              · exact .inr (.inl ⟨_, rfl⟩)
            · exact .inr (.inl ⟨_, rfl⟩)

/-- C10: in both variants, `Auth.login` returns successfully exactly when it
stores a token: on success the response data has a truthy `access` field and
the store afterwards holds exactly that value; on any failure (validation,
normalization, api error, or missing/falsy `access`) no new token is written
by login itself — any value present in the store afterwards was already
stored before the call (the api side effect may only clear the store). -/
theorem login_token_write :
    (∀ (ph pw : String) (st : Option Json) (nowMs : ℤ) (resp : HttpResp) (data : Json),
        (loginP0 ph pw st nowMs resp).1 = .ok data →
        ∃ a, data.get "access" = some a ∧ a.truthy = true ∧
          (loginP0 ph pw st nowMs resp).2.1 = some a)
    ∧ (∀ (ph pw : String) (st : Option Json) (nowMs : ℤ) (resp : HttpResp) (e : JsErr)
        (v : Json),
        (loginP0 ph pw st nowMs resp).1 = .error e →
        (loginP0 ph pw st nowMs resp).2.1 = some v → st = some v)
    ∧ (∀ (ph pw : String) (st : Option Json) (nowMs : ℤ) (resp : HttpResp) (data : Json),
        (loginA ph pw st nowMs resp).1 = .ok data →
        ∃ a, data.get "access" = some a ∧ a.truthy = true ∧
          (loginA ph pw st nowMs resp).2.1 = some a)
    ∧ (∀ (ph pw : String) (st : Option Json) (nowMs : ℤ) (resp : HttpResp) (e : JsErr)
        (v : Json),
        (loginA ph pw st nowMs resp).1 = .error e →
        (loginA ph pw st nowMs resp).2.1 = some v → st = some v) := by
  refine ⟨?_, ?_, ?_, ?_⟩
  · intro ph pw st nowMs resp data h
    rcases loginP0_spec ph pw st nowMs resp with ⟨e, he⟩ | ⟨e, he⟩ |
      ⟨d, a, hget, htr, _, he⟩
    · rw [he] at h; exact absurd h (by simp)
    · rw [he] at h; exact absurd h (by simp)
    · rw [he] at h
      simp only at h
      injection h with h
      subst h
      refine ⟨a, hget, htr, ?_⟩
      rw [he]
      simp [setToken, htr]
  · intro ph pw st nowMs resp e v h hv
    rcases loginP0_spec ph pw st nowMs resp with ⟨e', he⟩ | ⟨e', he⟩ |
      ⟨d, a, hget, htr, _, he⟩
    · rw [he] at hv
      simpa using hv
    · rw [he] at hv
      simp only at hv
      rcases apiP0_store_cases st false nowMs resp with hs | hs
      · rw [hs] at hv; exact hv
      · rw [hs] at hv; exact absurd hv (by simp)
    · rw [he] at h; exact absurd h (by simp)
  · intro ph pw st nowMs resp data h
    rcases loginA_spec ph pw st nowMs resp with ⟨e, he⟩ | ⟨e, he⟩ |
      ⟨d, a, hget, htr, _, he⟩
    · rw [he] at h; exact absurd h (by simp)
    · rw [he] at h; exact absurd h (by simp)
    · rw [he] at h
      simp only at h
      injection h with h
      subst h
      refine ⟨a, hget, htr, ?_⟩
      rw [he]
      simp [setToken, htr]
  · intro ph pw st nowMs resp e v h hv
    rcases loginA_spec ph pw st nowMs resp with ⟨e', he⟩ | ⟨e', he⟩ |
      ⟨d, a, hget, htr, _, he⟩
    · rw [he] at hv
      simpa using hv
    · rw [he] at hv
      simp only at hv
      rcases apiA_store_cases st false nowMs resp with hs | hs
      · rw [hs] at hv; exact hv
      · rw [hs] at hv; exact absurd hv (by simp)
    · rw [he] at h; exact absurd h (by simp)

/-- Witness for `login_token_write`: a successful login response
`{"access":"tok"}` stores exactly "tok" (both variants), and a rejected
login (short password missing, wrong phone) leaves a prior token in place.
-/
theorem login_token_write_witness :
    (∃ a, (Json.obj [("access", Json.str "tok")]).get "access" = some a ∧
      a.truthy = true ∧
      (loginP0 "0712345678" "password1" none 0 ⟨200, "\x7b\"access\":\"tok\"\x7d"⟩).2.1 = some a)
    ∧ (∃ a, (Json.obj [("access", Json.str "tok")]).get "access" = some a ∧
      a.truthy = true ∧
      (loginA "0712345678" "password1" none 0 ⟨200, "\x7b\"access\":\"tok\"\x7d"⟩).2.1 = some a)
    ∧ ((some (Json.str "old") : Option Json) = some (Json.str "old")) :=
  ⟨login_token_write.1 "0712345678" "password1" none 0 ⟨200, "\x7b\"access\":\"tok\"\x7d"⟩
      (Json.obj [("access", Json.str "tok")]) rfl,
   login_token_write.2.2.1 "0712345678" "password1" none 0 ⟨200, "\x7b\"access\":\"tok\"\x7d"⟩
      (Json.obj [("access", Json.str "tok")]) rfl,
   login_token_write.2.1 "0712345678" "" (some (Json.str "old")) 0 ⟨200, ""⟩
      (.error "Phone and password required.") (Json.str "old") rfl rfl⟩
